import Mathlib

/-!
Shallow embedding of the arbitrage-detection core of the Crypto_Arbitrage_App
repository (python_backend). Python floats are modelled as exact rationals,
optional values as `Option`, and stateful methods as explicit state-passing
functions. Each definition mirrors one function or method of the source.
-/

namespace Crypto

/-- Python truthiness of an `Optional[float]`: `None` and `0.0` are falsy. -/
def pyTruthy : Option ℚ → Bool
  | none => false
  | some x => x != 0

/-- Boolean test that the first char list is a prefix of the second. -/
def charsPref : List Char → List Char → Bool
  | [], _ => true
  | _ :: _, [] => false
  | a :: as, b :: bs => a == b && charsPref as bs

/-- Boolean test that `sub` occurs as a contiguous sublist of the second list. -/
def charsSubOf (sub : List Char) : List Char → Bool
  | [] => sub.isEmpty
  | b :: t => charsPref sub (b :: t) || charsSubOf sub t

/-- Python substring containment `sub in s` on strings. -/
def strContainsSub (s sub : String) : Bool :=
  charsSubOf sub.toList s.toList

/-- Python `s.split(sep)[0]` for a one-char separator: the longest prefix not
containing the separator (here used with the separator `/`). -/
def symbolBase (s : String) : String :=
  String.mk (s.toList.takeWhile (fun c => c != '/'))

/-- Normalized quote format across all exchanges
(exchanges/base_exchange.py, dataclass `Quote`). -/
structure Quote where
  exchange : String
  symbol : String
  bid : ℚ
  ask : ℚ
  timestamp : ℚ
  bid_volume : Option ℚ := none
  ask_volume : Option ℚ := none
  last_price : Option ℚ := none
  daily_change : Option ℚ := none
  daily_change_percent : Option ℚ := none
deriving DecidableEq, Repr

/-- Arbitrage opportunity record
(arbitrage/detector.py, dataclass `ArbitrageOpportunity`), with the default
field values of the dataclass declaration. -/
structure ArbitrageOpportunity where
  id : String
  symbol : String
  buy_exchange : String
  sell_exchange : String
  buy_price : ℚ
  sell_price : ℚ
  spread : ℚ
  spread_percent : ℚ
  timestamp : ℚ
  buy_volume : Option ℚ := none
  sell_volume : Option ℚ := none
  confidence_score : ℚ := 0.0
  profit_potential : ℚ := 0.0
  execution_time_estimate : ℚ := 0.0
  risk_level : String := "medium"
  historical_frequency : ℚ := 0.0
deriving DecidableEq, Repr

/-- Method `ArbitrageOpportunity._calculate_confidence` (detector.py lines
38-65), as a function of the raw fields it reads. Python `if self.buy_volume
and self.sell_volume` uses float truthiness, so a zero volume counts as
missing. -/
def calculateConfidence (symbol buy_exchange sell_exchange : String)
    (spread_percent : ℚ) (buy_volume sell_volume : Option ℚ) : ℚ :=
  let base_confidence : ℚ := 0.4
  let spread_factor : ℚ := min (spread_percent / 3.0) 0.25
  let volume_factor : ℚ :=
    if pyTruthy buy_volume && pyTruthy sell_volume then
      let min_volume := min (buy_volume.getD 0) (sell_volume.getD 0)
      if strContainsSub symbol "BTC" then min (min_volume / 2.0) 0.15
      else if strContainsSub symbol "ETH" then min (min_volume / 10.0) 0.15
      else min (min_volume / 100.0) 0.15
    else 0.0
  let reliability_factor : ℚ :=
    if (buy_exchange == "kraken") && (sell_exchange == "kraken") then 0.15
    else if (buy_exchange == "kraken") || (sell_exchange == "kraken") then 0.10
    else if (buy_exchange == "kucoin" || buy_exchange == "bitfinex") &&
            (sell_exchange == "kucoin" || sell_exchange == "bitfinex") then 0.05
    else 0.0
  min 1.0 (base_confidence + spread_factor + volume_factor + reliability_factor)

/-- Per-base-symbol volume caps of `_calculate_profit_potential`
(detector.py lines 72-78), with default 100.0. -/
def volumeLimit (base : String) : ℚ :=
  if base == "BTC" then 0.5
  else if base == "ETH" then 5.0
  else if base == "XRP" then 1000.0
  else if base == "LTC" then 10.0
  else if base == "ADA" then 1000.0
  else if base == "DOT" then 100.0
  else if base == "LINK" then 100.0
  else if base == "UNI" then 100.0
  else 100.0

/-- Method `ArbitrageOpportunity._calculate_profit_potential` (detector.py
lines 67-83). Python `not self.buy_volume` is float truthiness. Python
`min(a, b, c)` is the minimum of the three arguments. -/
def calculateProfitPotential (symbol : String) (spread : ℚ)
    (buy_volume sell_volume : Option ℚ) : ℚ :=
  if !(pyTruthy buy_volume) || !(pyTruthy sell_volume) then 0.0
  else
    let max_volume := volumeLimit (symbolBase symbol)
    let tradeable_volume := min (buy_volume.getD 0) (min (sell_volume.getD 0) max_volume)
    let effective_spread := spread * 0.9
    effective_spread * tradeable_volume

/-- Method `ArbitrageOpportunity._estimate_execution_time` (detector.py lines
85-94). -/
def estimateExecutionTime (symbol : String) (spread_percent : ℚ) : ℚ :=
  let base_time : ℚ := 30.0
  let spread_factor : ℚ := max 0.5 (2.0 - spread_percent / 0.5)
  let liquidity_factor : ℚ :=
    if strContainsSub symbol "BTC" || strContainsSub symbol "ETH" then 0.7 else 1.0
  base_time * spread_factor * liquidity_factor

/-- Method `ArbitrageOpportunity._assess_risk_level` (detector.py lines
96-107). -/
def assessRiskLevel (spread_percent : ℚ) : String :=
  if spread_percent > 1.0 then "high"
  else if spread_percent > 0.5 then "medium-high"
  else if spread_percent > 0.2 then "medium"
  else if spread_percent > 0.1 then "medium-low"
  else "low"

/-- Dataclass construction of `ArbitrageOpportunity` followed by
`__post_init__` (detector.py lines 32-36): the four derived scoring fields are
filled in from the raw fields; `historical_frequency` keeps its default 0. -/
def mkOpportunity (id symbol buy_exchange sell_exchange : String)
    (buy_price sell_price spread spread_percent timestamp : ℚ)
    (buy_volume sell_volume : Option ℚ) : ArbitrageOpportunity :=
  { id, symbol, buy_exchange, sell_exchange, buy_price, sell_price, spread,
    spread_percent, timestamp, buy_volume, sell_volume,
    confidence_score :=
      calculateConfidence symbol buy_exchange sell_exchange spread_percent buy_volume sell_volume,
    profit_potential := calculateProfitPotential symbol spread buy_volume sell_volume,
    execution_time_estimate := estimateExecutionTime symbol spread_percent,
    risk_level := assessRiskLevel spread_percent,
    historical_frequency := 0.0 }

/-- User-defined alert condition (detector.py, dataclass `AlertCondition`),
with the default field values of the dataclass declaration. -/
structure AlertCondition where
  id : String
  name : String
  symbol : Option String := none
  min_spread_percent : ℚ := 0.1
  min_profit_potential : ℚ := 0.0
  min_confidence_score : ℚ := 0.5
  preferred_exchanges : List String := []
  max_risk_level : String := "medium-high"
  enabled : Bool := true
deriving DecidableEq, Repr

/-- The ordered risk tiers used by `AlertCondition.matches`
(detector.py line 164). -/
def risk_levels : List String :=
  ["low", "medium-low", "medium", "medium-high", "high"]

/-- Method `AlertCondition.matches` (detector.py lines 142-168). Python
`if self.symbol and ...` treats `None` and the empty string as falsy; Python
list truthiness treats the empty list as falsy. -/
def alertMatches (c : AlertCondition) (o : ArbitrageOpportunity) : Bool :=
  if !c.enabled then false
  else if (match c.symbol with
           | some s => !s.isEmpty && o.symbol != s
           | none => false) then false
  else if o.spread_percent < c.min_spread_percent then false
  else if o.profit_potential < c.min_profit_potential then false
  else if o.confidence_score < c.min_confidence_score then false
  else if !c.preferred_exchanges.isEmpty &&
          (!(c.preferred_exchanges.contains o.buy_exchange) &&
           !(c.preferred_exchanges.contains o.sell_exchange)) then false
  else if risk_levels.indexOf o.risk_level > risk_levels.indexOf c.max_risk_level then false
  else true

/-- Method `ArbitrageDetector.check_alerts` (detector.py lines 335-344): the
alert-condition table is modelled as the list of its values in iteration
order; the nested loops append `(condition, opportunity)` for every match. -/
def check_alerts (alert_conditions : List AlertCondition)
    (opportunities : List ArbitrageOpportunity) :
    List (AlertCondition × ArbitrageOpportunity) :=
  opportunities.flatMap (fun o =>
    (alert_conditions.filter (fun c => alertMatches c o)).map (fun c => (c, o)))

/-- Method `ArbitrageDetector._check_arbitrage_pair` (detector.py lines
253-290). The wall-clock reading `time.time()` is passed in as `now`; the id
suffix `int(time.time())` is its floor. -/
def checkArbitragePair (min_spread_percent : ℚ) (symbol buy_exchange : String)
    (buy_quote : Quote) (sell_exchange : String) (sell_quote : Quote)
    (now : ℚ) : List ArbitrageOpportunity :=
  let buy_price := buy_quote.ask
  let sell_price := sell_quote.bid
  if buy_price ≤ 0 ∨ sell_price ≤ 0 then []
  else
    let spread := sell_price - buy_price
    let spread_percent := spread / buy_price * 100
    if spread > 0 ∧ spread_percent ≥ min_spread_percent then
      [mkOpportunity
        (symbol ++ "_" ++ buy_exchange ++ "_" ++ sell_exchange ++ "_" ++ toString (⌊now⌋ : ℤ))
        symbol buy_exchange sell_exchange buy_price sell_price spread
        spread_percent now buy_quote.ask_volume sell_quote.bid_volume]
    else []

/-- The index pairs `(i, j)` with `i < j` in the iteration order of the double
loop of `_analyze_symbol` (detector.py lines 237-240). -/
def orderedPairs {α : Type} : List α → List (α × α)
  | [] => []
  | x :: xs => (xs.map (fun y => (x, y))) ++ orderedPairs xs

/-- Method `ArbitrageDetector._analyze_symbol` (detector.py lines 224-251).
The aggregated quote table (exchange name to per-symbol quotes) is modelled as
an association list; for each unordered exchange pair both directions are
checked, in loop order. -/
def analyzeSymbol (min_spread_percent : ℚ) (symbol : String)
    (all_quotes : List (String × List (String × Quote))) (now : ℚ) :
    List ArbitrageOpportunity :=
  let symbol_quotes :=
    all_quotes.filterMap (fun p => (p.2.lookup symbol).map (fun q => (p.1, q)))
  if symbol_quotes.length < 2 then []
  else
    (orderedPairs symbol_quotes).flatMap (fun pq =>
      checkArbitragePair min_spread_percent symbol pq.1.1 pq.1.2 pq.2.1 pq.2.2 now ++
      checkArbitragePair min_spread_percent symbol pq.2.1 pq.2.2 pq.1.1 pq.1.2 now)

/-- The relation used by the sort of `detect_opportunities` (detector.py line
202): descending `profit_potential`. -/
def byProfitDesc (a b : ArbitrageOpportunity) : Prop :=
  b.profit_potential ≤ a.profit_potential

instance : DecidableRel byProfitDesc := fun a b =>
  inferInstanceAs (Decidable (b.profit_potential ≤ a.profit_potential))

/-- The sort of `detect_opportunities` (detector.py line 202):
`opportunities.sort(key=lambda x: x.profit_potential, reverse=True)`. Python
uses a stable sort; `List.insertionSort` is the stable sort on the same key
order, hence extensionally the same list. -/
def sortOpportunities (l : List ArbitrageOpportunity) : List ArbitrageOpportunity :=
  l.insertionSort byProfitDesc

/-- The `similar_count` inner sum of `_update_historical_data` (detector.py
lines 302-308). -/
def similarCount (o : ArbitrageOpportunity) (hist : List ArbitrageOpportunity) : ℕ :=
  hist.countP (fun h =>
    h.symbol == o.symbol && h.buy_exchange == o.buy_exchange &&
    h.sell_exchange == o.sell_exchange)

/-- Method `ArbitrageDetector._update_historical_data` (detector.py lines
292-309) with explicit state passing: takes the retained history, the newly
detected opportunities and the wall clock; returns the new retained history
and the new opportunities with `historical_frequency` reassigned. In the
source the history entries and the new opportunities are the same Python
objects; the counting predicate reads only the symbol and exchange fields,
which the update never changes, so counting over the pre-update copies is
faithful. -/
def updateHistoricalData (historical : List ArbitrageOpportunity)
    (opportunities : List ArbitrageOpportunity) (now : ℚ) :
    List ArbitrageOpportunity × List ArbitrageOpportunity :=
  let extended := historical ++ opportunities
  let cutoff_time := now - 86400
  let retained := extended.filter (fun o => o.timestamp > cutoff_time)
  let updated := opportunities.map (fun o =>
    { o with historical_frequency :=
        (similarCount o retained : ℚ) / ((max 1 retained.length : ℕ) : ℚ) })
  (retained, updated)

/-- Raw ticker message as returned by the ccxt fetch, with the optional fields
the adapters read (`bid`, `ask`, `bidVolume`, `askVolume`, `last`, `change`,
`percentage`). -/
structure TickerMsg where
  bid : Option ℚ := none
  ask : Option ℚ := none
  bidVolume : Option ℚ := none
  askVolume : Option ℚ := none
  last : Option ℚ := none
  change : Option ℚ := none
  percentage : Option ℚ := none
deriving DecidableEq, Repr

/-- Validation-and-construction stage of `KrakenExchange.fetch_ticker`
(exchanges/kraken_exchange.py lines 83-105), from the fetched ticker onward:
`not ticker or not ticker.get(bid) or not ticker.get(ask)` returns `None`
(Python truthiness: a missing or zero field is falsy), a crossed book
`bid >= ask` returns `None`; both leave `error_count` unchanged — only the
exception handler (out of this code path) increments it. -/
def krakenFetchTicker (name symbol : String) (ticker : Option TickerMsg)
    (error_count : ℕ) (now : ℚ) : Option Quote × ℕ :=
  match ticker with
  | none => (none, error_count)
  | some t =>
    if !(pyTruthy t.bid) || !(pyTruthy t.ask) then (none, error_count)
    else
      let b := t.bid.getD 0
      let a := t.ask.getD 0
      if b ≥ a then (none, error_count)
      else
        (some { exchange := name, symbol := symbol, bid := b, ask := a,
                timestamp := now, bid_volume := t.bidVolume,
                ask_volume := t.askVolume, last_price := t.last,
                daily_change := t.change, daily_change_percent := t.percentage },
         error_count)

/-- Validation-and-construction stage of `BitfinexExchange.fetch_ticker`
(exchanges/bitfinex_exchange.py lines 67-84); the validation logic is
identical to the Kraken adapter, embedded separately for its own source
file. -/
def bitfinexFetchTicker (name symbol : String) (ticker : Option TickerMsg)
    (error_count : ℕ) (now : ℚ) : Option Quote × ℕ :=
  match ticker with
  | none => (none, error_count)
  | some t =>
    if !(pyTruthy t.bid) || !(pyTruthy t.ask) then (none, error_count)
    else
      let b := t.bid.getD 0
      let a := t.ask.getD 0
      if b ≥ a then (none, error_count)
      else
        (some { exchange := name, symbol := symbol, bid := b, ask := a,
                timestamp := now, bid_volume := t.bidVolume,
                ask_volume := t.askVolume, last_price := t.last,
                daily_change := t.change, daily_change_percent := t.percentage },
         error_count)

/-! Concrete data used by the claim theorems. -/

/-- Source A of the C1 scenario: quoting ask 10. -/
def qA : Quote :=
  { exchange := "A", symbol := "BTC/USD", bid := 9.99, ask := 10, timestamp := 0 }

/-- Source B of the C1 scenario: quoting bid 10.06. -/
def qB : Quote :=
  { exchange := "B", symbol := "BTC/USD", bid := 10.06, ask := 10.1, timestamp := 0 }

/-- Quote X of the C2 scenario: ask 100, bid 100. -/
def c2QuoteX : Quote :=
  { exchange := "X", symbol := "BTC/USD", bid := 100, ask := 100, timestamp := 0 }

/-- Quote Y of the C2 scenario: ask 99, bid 101. -/
def c2QuoteY : Quote :=
  { exchange := "Y", symbol := "BTC/USD", bid := 101, ask := 99, timestamp := 0 }

/-- A concrete opportunity as constructed by the detector, used for the C3
historical-update scenario. -/
def c3Opp : ArbitrageOpportunity :=
  mkOpportunity "c3" "AAA/USD" "e1" "e2" 100 101 1 1 1000 none none

/-- The C3 opportunity after the historical-data update reassigned its
`historical_frequency`. -/
def c3Upd : ArbitrageOpportunity := { c3Opp with historical_frequency := 1 }

/-- A well-formed quote produced by the C4 witness ticker. -/
def c4WQuote : Quote :=
  { exchange := "kraken", symbol := "BTC/USD", bid := 1, ask := 2, timestamp := 0 }

/-- First opportunity of the C5 tie scenario: no volumes, so
profit_potential 0, with spread percentage 0.1. -/
def c5Opp1 : ArbitrageOpportunity :=
  mkOpportunity "o1" "AAA/USD" "e1" "e2" 100 100.1 0.1 0.1 0 none none

/-- Second opportunity of the C5 tie scenario: no volumes, so
profit_potential 0, with the larger spread percentage 0.5. -/
def c5Opp2 : ArbitrageOpportunity :=
  mkOpportunity "o2" "AAA/USD" "e1" "e2" 100 100.5 0.5 0.5 0 none none

/-- A concrete detected opportunity for the C10 frequency-bounds witness. -/
def c10Opp : ArbitrageOpportunity :=
  mkOpportunity "c10" "AAA/USD" "e1" "e2" 100 101 1 1 1000 none none

/-- C1: for quotes with positive buy ask and sell bid, `_check_arbitrage_pair`
constructs an `ArbitrageOpportunity` if and only if the spread
`sell.bid - buy.ask` is positive and the spread percentage
`spread / buy.ask * 100` is at least the configured `min_spread_percent`;
with source A quoting ask 10 and source B quoting bid 10.06, an opportunity is
produced exactly when `min_spread_percent ≤ 0.6`. -/
theorem checkArbitragePair_opportunity_iff :
    (∀ (ms : ℚ) (sym be se : String) (bq sq : Quote) (now : ℚ),
        0 < bq.ask → 0 < sq.bid →
        (checkArbitragePair ms sym be bq se sq now ≠ [] ↔
          0 < sq.bid - bq.ask ∧ ms ≤ (sq.bid - bq.ask) / bq.ask * 100)) ∧
    (∀ ms now : ℚ,
        checkArbitragePair ms "BTC/USD" "A" qA "B" qB now ≠ [] ↔ ms ≤ 0.6) := by
  have main : ∀ (ms : ℚ) (sym be se : String) (bq sq : Quote) (now : ℚ),
      0 < bq.ask → 0 < sq.bid →
      (checkArbitragePair ms sym be bq se sq now ≠ [] ↔
        0 < sq.bid - bq.ask ∧ ms ≤ (sq.bid - bq.ask) / bq.ask * 100) := by
    intro ms sym be se bq sq now hask hbid
    simp only [checkArbitragePair]
    rw [if_neg (by push_neg; exact ⟨hask, hbid⟩)]
    split_ifs with h
    · simpa using h
    · simpa using h
  refine ⟨main, ?_⟩
  intro ms now
  rw [main ms "BTC/USD" "A" "B" qA qB now (by norm_num [qA]) (by norm_num [qB])]
  norm_num [qA, qB]

/-- Witness for C1: at threshold 0.05 the A/B scenario produces an
opportunity. -/
theorem checkArbitragePair_opportunity_iff_witness :
    checkArbitragePair 0.05 "BTC/USD" "A" qA "B" qB 0 ≠ [] :=
  (checkArbitragePair_opportunity_iff.2 0.05 0).2 (by norm_num)

/-- C2 counterexample: with X(ask=100, bid=100) and Y(ask=99, bid=101)
evaluated in one detection pass (threshold 0.05, the detector default), the
reverse direction — buy on Y at its ask 99, sell on X at its bid 100 — also
yields an opportunity (spread 1), contradicting the claim that it yields
none. -/
theorem analyzeSymbol_reverse_direction_fires :
    ((analyzeSymbol 0.05 "BTC/USD"
        [("X", [("BTC/USD", c2QuoteX)]), ("Y", [("BTC/USD", c2QuoteY)])] 0).filter
      (fun o => o.buy_exchange == "Y")).map (fun o => (o.sell_exchange, o.spread)) =
    [("X", 1)] := by
  norm_num [analyzeSymbol, checkArbitragePair, mkOpportunity, orderedPairs,
    c2QuoteX, c2QuoteY, List.lookup_cons, List.filterMap_cons, List.filter_cons,
    (by decide : ("X" : String) ≠ "Y"), (by decide : ("Y" : String) ≠ "X")]

/-- C2 amended: with X(ask=100, bid=100) and Y(ask=99, bid=101), one detection
pass yields opportunities in BOTH directions: buy X at 100 / sell Y at 101
(spread 1, 1 percent) and buy Y at 99 / sell X at 100 (spread 1, 100/99
percent), since each direction has positive spread above the threshold. -/
theorem analyzeSymbol_both_directions :
    (analyzeSymbol 0.05 "BTC/USD"
        [("X", [("BTC/USD", c2QuoteX)]), ("Y", [("BTC/USD", c2QuoteY)])] 0).map
      (fun o => (o.buy_exchange, o.sell_exchange, o.spread, o.spread_percent)) =
    [("X", "Y", 1, 1), ("Y", "X", 1, 100 / 99)] := by
  norm_num [analyzeSymbol, checkArbitragePair, mkOpportunity, orderedPairs,
    c2QuoteX, c2QuoteY, List.lookup_cons, List.filterMap_cons]

/-- C3 counterexample: a freshly constructed opportunity has
`historical_frequency` 0, and the per-cycle historical-data update reassigns
that field to 1 — an engine operation does modify a field of an
already-constructed opportunity. -/
theorem updateHistoricalData_mutates_frequency :
    (updateHistoricalData [] [c3Opp] 1000).2.map (fun o => o.historical_frequency) = [1] ∧
    c3Opp.historical_frequency = 0 := by
  norm_num [updateHistoricalData, similarCount, c3Opp, mkOpportunity,
    List.filter_cons, List.countP_cons]

/-- C3 amended: the four derived scoring fields (confidence_score,
profit_potential, execution_time_estimate, risk_level) are computed once at
construction and the per-cycle historical-data update leaves every field of
each new opportunity unchanged except `historical_frequency`, which it
reassigns. -/
theorem updateHistoricalData_only_frequency_changes :
    ∀ (hist opps : List ArbitrageOpportunity) (now : ℚ),
      ∀ o2 ∈ (updateHistoricalData hist opps now).2,
        ∃ o ∈ opps,
          o2.id = o.id ∧ o2.symbol = o.symbol ∧ o2.buy_exchange = o.buy_exchange ∧
          o2.sell_exchange = o.sell_exchange ∧ o2.buy_price = o.buy_price ∧
          o2.sell_price = o.sell_price ∧ o2.spread = o.spread ∧
          o2.spread_percent = o.spread_percent ∧ o2.timestamp = o.timestamp ∧
          o2.buy_volume = o.buy_volume ∧ o2.sell_volume = o.sell_volume ∧
          o2.confidence_score = o.confidence_score ∧
          o2.profit_potential = o.profit_potential ∧
          o2.execution_time_estimate = o.execution_time_estimate ∧
          o2.risk_level = o.risk_level := by
  intro hist opps now o2 ho2
  simp only [updateHistoricalData, List.mem_map] at ho2
  obtain ⟨o, ho, rfl⟩ := ho2
  exact ⟨o, ho, rfl, rfl, rfl, rfl, rfl, rfl, rfl, rfl, rfl, rfl, rfl, rfl, rfl, rfl, rfl⟩

/-- Witness for the amended C3: the updated copy of the concrete opportunity
agrees with it on every field except `historical_frequency`. -/
theorem updateHistoricalData_only_frequency_changes_witness :
    ∃ o ∈ [c3Opp],
      c3Upd.id = o.id ∧ c3Upd.symbol = o.symbol ∧ c3Upd.buy_exchange = o.buy_exchange ∧
      c3Upd.sell_exchange = o.sell_exchange ∧ c3Upd.buy_price = o.buy_price ∧
      c3Upd.sell_price = o.sell_price ∧ c3Upd.spread = o.spread ∧
      c3Upd.spread_percent = o.spread_percent ∧ c3Upd.timestamp = o.timestamp ∧
      c3Upd.buy_volume = o.buy_volume ∧ c3Upd.sell_volume = o.sell_volume ∧
      c3Upd.confidence_score = o.confidence_score ∧
      c3Upd.profit_potential = o.profit_potential ∧
      c3Upd.execution_time_estimate = o.execution_time_estimate ∧
      c3Upd.risk_level = o.risk_level :=
  updateHistoricalData_only_frequency_changes [] [c3Opp] 1000 c3Upd (by
    norm_num [updateHistoricalData, similarCount, c3Upd, c3Opp, mkOpportunity,
      List.filter_cons, List.countP_cons])

/-- C4 counterexample: on a crossed book (bid 5, ask 5, so bid ≥ ask) the
Kraken adapter returns `None` but leaves `error_count` unchanged at 0 — it is
not incremented as the claim states. -/
theorem krakenFetchTicker_crossed_book_no_increment :
    krakenFetchTicker "kraken" "BTC/USD" (some { bid := some 5, ask := some 5 }) 0 0 =
      (none, 0) := by decide

/-- C4 amended: on a missing ticker, missing/zero bid or ask, or a crossed
book (bid ≥ ask), both adapters return `None`, and the validation path never
changes `error_count` (it is incremented only by the exception handler);
consequently a returned quote always has bid < ask. -/
theorem fetchTicker_validation :
    (∀ (name sym : String) (t : Option TickerMsg) (ec : ℕ) (now : ℚ) (q : Quote),
        (krakenFetchTicker name sym t ec now).1 = some q → q.bid < q.ask) ∧
    (∀ (name sym : String) (t : Option TickerMsg) (ec : ℕ) (now : ℚ),
        (krakenFetchTicker name sym t ec now).2 = ec) ∧
    (∀ (name sym : String) (t : TickerMsg) (ec : ℕ) (now : ℚ),
        (!(pyTruthy t.bid) || !(pyTruthy t.ask) ||
          decide (t.ask.getD 0 ≤ t.bid.getD 0)) = true →
        (krakenFetchTicker name sym (some t) ec now).1 = none) ∧
    (∀ (name sym : String) (t : Option TickerMsg) (ec : ℕ) (now : ℚ) (q : Quote),
        (bitfinexFetchTicker name sym t ec now).1 = some q → q.bid < q.ask) ∧
    (∀ (name sym : String) (t : Option TickerMsg) (ec : ℕ) (now : ℚ),
        (bitfinexFetchTicker name sym t ec now).2 = ec) ∧
    (∀ (name sym : String) (t : TickerMsg) (ec : ℕ) (now : ℚ),
        (!(pyTruthy t.bid) || !(pyTruthy t.ask) ||
          decide (t.ask.getD 0 ≤ t.bid.getD 0)) = true →
        (bitfinexFetchTicker name sym (some t) ec now).1 = none) := by
  refine ⟨?_, ?_, ?_, ?_, ?_, ?_⟩
  · intro name sym t ec now q h
    cases t with
    | none => simp [krakenFetchTicker] at h
    | some tm =>
      simp only [krakenFetchTicker] at h
      split_ifs at h with h1 h2
      replace h := Option.some_inj.1 (show _ = some q from h)
      rw [← h]
      exact lt_of_not_ge h2
  · intro name sym t ec now
    cases t with
    | none => rfl
    | some tm =>
      simp only [krakenFetchTicker]
      split_ifs <;> rfl
  · intro name sym t ec now h
    simp only [krakenFetchTicker]
    by_cases h3 : (!(pyTruthy t.bid) || !(pyTruthy t.ask)) = true
    · rw [if_pos h3]
    · rw [if_neg h3]
      have h2 : t.bid.getD 0 ≥ t.ask.getD 0 := by
        rcases Bool.or_eq_true_iff.1 h with h12 | hd
        · exact absurd h12 h3
        · exact of_decide_eq_true hd
      rw [if_pos h2]
  · intro name sym t ec now q h
    cases t with
    | none => simp [bitfinexFetchTicker] at h
    | some tm =>
      simp only [bitfinexFetchTicker] at h
      split_ifs at h with h1 h2
      replace h := Option.some_inj.1 (show _ = some q from h)
      rw [← h]
      exact lt_of_not_ge h2
  · intro name sym t ec now
    cases t with
    | none => rfl
    | some tm =>
      simp only [bitfinexFetchTicker]
      split_ifs <;> rfl
  · intro name sym t ec now h
    simp only [bitfinexFetchTicker]
    by_cases h3 : (!(pyTruthy t.bid) || !(pyTruthy t.ask)) = true
    · rw [if_pos h3]
    · rw [if_neg h3]
      have h2 : t.bid.getD 0 ≥ t.ask.getD 0 := by
        rcases Bool.or_eq_true_iff.1 h with h12 | hd
        · exact absurd h12 h3
        · exact of_decide_eq_true hd
      rw [if_pos h2]

/-- Witness for the amended C4: a valid ticker (bid 1, ask 2) yields a quote,
and the theorem gives bid < ask for it. -/
theorem fetchTicker_validation_witness : c4WQuote.bid < c4WQuote.ask :=
  fetchTicker_validation.1 "kraken" "BTC/USD" (some { bid := some 1, ask := some 2 })
    0 0 c4WQuote (by decide)

/-- C9: two opportunities constructed from identical raw inputs that differ
only in id and timestamp have identical derived confidence_score,
profit_potential, execution_time_estimate and risk_level: none of the
derivations reads the timestamp or the id. -/
theorem mkOpportunity_derived_time_independent :
    ∀ (id1 id2 sym be se : String) (bp sp spr sppct ts1 ts2 : ℚ)
      (bv sv : Option ℚ),
      (mkOpportunity id1 sym be se bp sp spr sppct ts1 bv sv).confidence_score =
        (mkOpportunity id2 sym be se bp sp spr sppct ts2 bv sv).confidence_score ∧
      (mkOpportunity id1 sym be se bp sp spr sppct ts1 bv sv).profit_potential =
        (mkOpportunity id2 sym be se bp sp spr sppct ts2 bv sv).profit_potential ∧
      (mkOpportunity id1 sym be se bp sp spr sppct ts1 bv sv).execution_time_estimate =
        (mkOpportunity id2 sym be se bp sp spr sppct ts2 bv sv).execution_time_estimate ∧
      (mkOpportunity id1 sym be se bp sp spr sppct ts1 bv sv).risk_level =
        (mkOpportunity id2 sym be se bp sp spr sppct ts2 bv sv).risk_level :=
  fun _ _ _ _ _ _ _ _ _ _ _ _ _ => ⟨rfl, rfl, rfl, rfl⟩

/-- Helper for stability: inserting an element with `orderedInsert` on the
descending-profit relation never passes an element of equal key, so the
subsequence of any fixed profit value is preserved. -/
theorem filter_profit_orderedInsert (x : ArbitrageOpportunity) (p : ℚ)
    (l : List ArbitrageOpportunity) :
    (l.orderedInsert byProfitDesc x).filter (fun o => o.profit_potential == p) =
    ((x :: l).filter (fun o => o.profit_potential == p)) := by
  induction l with
  | nil => rfl
  | cons y ys ih =>
    simp only [List.orderedInsert]
    by_cases h : byProfitDesc x y
    · rw [if_pos h]
    · rw [if_neg h]
      have hxy : ¬(y.profit_potential ≤ x.profit_potential) := h
      by_cases hx : x.profit_potential = p <;> by_cases hy : y.profit_potential = p
      · exact absurd (hy.trans hx.symm).le hxy
      all_goals simp [List.filter_cons, hx, hy, ih]

/-- C5 counterexample: two distinct opportunities with equal profit_potential
(no volumes, so both 0) keep their encounter order under the sort of
`detect_opportunities`, even though the first has the SMALLER spread_percent —
ties are not broken by spread_percent descending. -/
theorem sortOpportunities_tie_keeps_encounter_order :
    sortOpportunities [c5Opp1, c5Opp2] = [c5Opp1, c5Opp2] ∧
    c5Opp1.profit_potential = c5Opp2.profit_potential ∧
    c5Opp1.spread_percent < c5Opp2.spread_percent ∧
    c5Opp1 ≠ c5Opp2 := by
  refine ⟨?_, ?_, ?_, ?_⟩
  · norm_num [sortOpportunities, List.insertionSort, List.orderedInsert, byProfitDesc,
      c5Opp1, c5Opp2, mkOpportunity, calculateProfitPotential, pyTruthy]
  · norm_num [c5Opp1, c5Opp2, mkOpportunity, calculateProfitPotential, pyTruthy]
  · norm_num [c5Opp1, c5Opp2, mkOpportunity]
  · norm_num [c5Opp1, c5Opp2, mkOpportunity, ArbitrageOpportunity.mk.injEq]

/-- C5 amended: the list produced by the sort of `detect_opportunities` is
sorted by profit_potential descending; opportunities with equal
profit_potential keep their encounter order (the sort is stable), rather than
being ordered by spread_percent descending. -/
theorem sortOpportunities_sorted_and_stable :
    ∀ l : List ArbitrageOpportunity,
      (sortOpportunities l).Pairwise
        (fun a b => b.profit_potential ≤ a.profit_potential) ∧
      ∀ p : ℚ, (sortOpportunities l).filter (fun o => o.profit_potential == p) =
        l.filter (fun o => o.profit_potential == p) := by
  intro l
  constructor
  · haveI : IsTotal ArbitrageOpportunity byProfitDesc :=
      ⟨fun a b => le_total b.profit_potential a.profit_potential⟩
    haveI : IsTrans ArbitrageOpportunity byProfitDesc :=
      ⟨fun _ _ _ hab hbc => le_trans hbc hab⟩
    exact List.sorted_insertionSort byProfitDesc l
  · intro p
    induction l with
    | nil => rfl
    | cons x xs ih =>
      have h1 : sortOpportunities (x :: xs) =
          (sortOpportunities xs).orderedInsert byProfitDesc x := rfl
      rw [h1, filter_profit_orderedInsert, List.filter_cons, List.filter_cons]
      split_ifs
      · rw [ih]
      · exact ih

/-- C6: the confidence score is non-decreasing in spread_percent with all
other raw inputs held constant, and never exceeds 1. -/
theorem calculateConfidence_monotone_bounded :
    (∀ (sym be se : String) (bv sv : Option ℚ) (sp1 sp2 : ℚ), sp1 ≤ sp2 →
        calculateConfidence sym be se sp1 bv sv ≤
          calculateConfidence sym be se sp2 bv sv) ∧
    (∀ (sym be se : String) (sp : ℚ) (bv sv : Option ℚ),
        calculateConfidence sym be se sp bv sv ≤ 1) := by
  constructor
  · intro sym be se bv sv sp1 sp2 h
    simp only [calculateConfidence]
    apply min_le_min le_rfl
    have hmin : min (sp1 / 3.0) 0.25 ≤ min (sp2 / 3.0) 0.25 :=
      min_le_min (by linarith) le_rfl
    linarith
  · intro sym be se sp bv sv
    simp only [calculateConfidence]
    exact le_trans (min_le_left _ _) (by norm_num)

/-- Witness for C6: at spread percentages 1 and 2 with no volumes, the
monotonicity instance holds. -/
theorem calculateConfidence_monotone_bounded_witness :
    calculateConfidence "BTC/USD" "kraken" "bitfinex" 1 none none ≤
      calculateConfidence "BTC/USD" "kraken" "bitfinex" 2 none none :=
  calculateConfidence_monotone_bounded.1 "BTC/USD" "kraken" "bitfinex"
    none none 1 2 (by norm_num)

/-- C7: risk levels follow the strict thresholds on spread_percent — 0.05,
0.15, 0.3, 0.7, 1.5 map to low, medium-low, medium, medium-high, high — and
the assigned tier index in the ordered five-tier list is monotone in
spread_percent. -/
theorem assessRiskLevel_thresholds_monotone :
    assessRiskLevel 0.05 = "low" ∧ assessRiskLevel 0.15 = "medium-low" ∧
    assessRiskLevel 0.3 = "medium" ∧ assessRiskLevel 0.7 = "medium-high" ∧
    assessRiskLevel 1.5 = "high" ∧
    (∀ sp1 sp2 : ℚ, sp1 ≤ sp2 →
      risk_levels.indexOf (assessRiskLevel sp1) ≤
        risk_levels.indexOf (assessRiskLevel sp2)) := by
  refine ⟨?_, ?_, ?_, ?_, ?_, ?_⟩
  · norm_num [assessRiskLevel]
  · norm_num [assessRiskLevel]
  · norm_num [assessRiskLevel]
  · norm_num [assessRiskLevel]
  · norm_num [assessRiskLevel]
  · intro sp1 sp2 h
    unfold assessRiskLevel
    split_ifs <;> first
      | decide
      | (exfalso; linarith)

/-- Witness for C7: the tier of spread 0.05 is at most the tier of
spread 1.5. -/
theorem assessRiskLevel_thresholds_monotone_witness :
    risk_levels.indexOf (assessRiskLevel 0.05) ≤
      risk_levels.indexOf (assessRiskLevel 1.5) :=
  assessRiskLevel_thresholds_monotone.2.2.2.2.2 0.05 1.5 (by norm_num)

/-- C8: `matches` is false exactly when the condition is disabled, or its
symbol filter is a non-empty string differing from the opportunity symbol, or
one of the three minimums is not met, or a non-empty preferred-exchange list
contains neither leg, or the risk tier index strictly exceeds that of the
maximum allowed tier; and `check_alerts` returns exactly the pairs of the full
cross product for which `matches` holds. -/
theorem alertMatches_false_iff_and_check_alerts :
    (∀ (c : AlertCondition) (o : ArbitrageOpportunity),
        (alertMatches c o = false ↔
          c.enabled = false ∨
          (∃ s, c.symbol = some s ∧ s ≠ "" ∧ o.symbol ≠ s) ∨
          o.spread_percent < c.min_spread_percent ∨
          o.profit_potential < c.min_profit_potential ∨
          o.confidence_score < c.min_confidence_score ∨
          (c.preferred_exchanges ≠ [] ∧ o.buy_exchange ∉ c.preferred_exchanges ∧
            o.sell_exchange ∉ c.preferred_exchanges) ∨
          risk_levels.indexOf c.max_risk_level < risk_levels.indexOf o.risk_level)) ∧
    (∀ (conds : List AlertCondition) (opps : List ArbitrageOpportunity)
        (c : AlertCondition) (o : ArbitrageOpportunity),
        ((c, o) ∈ check_alerts conds opps ↔
          c ∈ conds ∧ o ∈ opps ∧ alertMatches c o = true)) := by
  constructor
  · intro c o
    unfold alertMatches
    split_ifs with h1 h2 h3 h4 h5 h6 h7
    · exact iff_of_true rfl (Or.inl (by simpa using h1))
    · refine iff_of_true rfl (Or.inr (Or.inl ?_))
      cases hs : c.symbol with
      | none => rw [hs] at h2; simp at h2
      | some s =>
        rw [hs] at h2
        rw [Bool.and_eq_true] at h2
        refine ⟨s, rfl, ?_, bne_iff_ne.1 h2.2⟩
        intro he
        subst he
        exact absurd h2.1 (by decide)
    · exact iff_of_true rfl (Or.inr (Or.inr (Or.inl h3)))
    · exact iff_of_true rfl (Or.inr (Or.inr (Or.inr (Or.inl h4))))
    · exact iff_of_true rfl (Or.inr (Or.inr (Or.inr (Or.inr (Or.inl h5)))))
    · refine iff_of_true rfl (Or.inr (Or.inr (Or.inr (Or.inr (Or.inr (Or.inl ?_))))))
      simp only [Bool.and_eq_true, Bool.not_eq_true', List.isEmpty_eq_false] at h6
      exact ⟨h6.1, fun hb => by simp [hb] at h6, fun hs => by simp [hs] at h6⟩
    · exact iff_of_true rfl (Or.inr (Or.inr (Or.inr (Or.inr (Or.inr (Or.inr h7))))))
    · refine iff_of_false (by simp) ?_
      rintro (hd | ⟨s, hs, hne, hneq⟩ | hd | hd | hd | ⟨hne, hb, hsell⟩ | hd)
      · exact absurd hd (by simpa using h1)
      · rw [hs] at h2
        simp only [Bool.and_eq_true, not_and_or] at h2
        rcases h2 with h2 | h2
        · exact hne ((String.isEmpty_iff s).1 (by simpa using h2))
        · exact hneq (by simpa using h2)
      · exact h3 hd
      · exact h4 hd
      · exact h5 hd
      · simp only [Bool.and_eq_true, Bool.not_eq_true', List.isEmpty_eq_false,
          not_and_or] at h6
        rcases h6 with h6 | h6
        · simp at h6
          exact hne h6
        · rcases h6 with h6 | h6
          · exact hb (by simpa using h6)
          · exact hsell (by simpa using h6)
      · exact h7 hd
  · intro conds opps c o
    simp only [check_alerts, List.mem_flatMap, List.mem_map, List.mem_filter,
      Prod.mk.injEq]
    constructor
    · rintro ⟨o1, ho1, c1, ⟨hc1, hm⟩, hcc, hoo⟩
      subst hcc
      subst hoo
      exact ⟨hc1, ho1, hm⟩
    · rintro ⟨hc, ho, hm⟩
      exact ⟨o, ho, c, ⟨hc, hm⟩, rfl, rfl⟩

/-- Helper for C10: the historical frequency formula of
`_update_historical_data` lies in (0, 1] whenever the opportunity itself is in
the retained history it is counted over. -/
theorem freq_formula_bounds (o : ArbitrageOpportunity)
    (R : List ArbitrageOpportunity) (hR : o ∈ R) :
    0 < (similarCount o R : ℚ) / ((max 1 R.length : ℕ) : ℚ) ∧
    (similarCount o R : ℚ) / ((max 1 R.length : ℕ) : ℚ) ≤ 1 := by
  have h1 : 0 < similarCount o R :=
    List.countP_pos_iff.2 ⟨o, hR, by simp⟩
  have h2 : similarCount o R ≤ R.length := List.countP_le_length _
  have h3 : 0 < R.length := List.length_pos_of_mem hR
  have h4 : (max 1 R.length : ℕ) = R.length := Nat.max_eq_right h3
  rw [h4]
  constructor
  · exact div_pos (by exact_mod_cast h1) (by exact_mod_cast h3)
  · exact (div_le_one (by exact_mod_cast h3)).2 (by exact_mod_cast h2)

/-- C10: after `_update_historical_data` runs on a non-empty list of newly
detected opportunities whose timestamps lie within the 24h retention window of
`now`, every new opportunity's reassigned historical_frequency is strictly
positive and at most 1: the new opportunities are appended to the retained
history before counting, so each counts at least itself and at most the whole
retained history. -/
theorem updateHistoricalData_frequency_in_unit :
    ∀ (hist opps : List ArbitrageOpportunity) (now : ℚ),
      opps ≠ [] →
      (∀ o ∈ opps, now - 86400 < o.timestamp) →
      ∀ o2 ∈ (updateHistoricalData hist opps now).2,
        0 < o2.historical_frequency ∧ o2.historical_frequency ≤ 1 := by
  intro hist opps now hne hts o2 ho2
  simp only [updateHistoricalData, List.mem_map] at ho2
  obtain ⟨o, ho, rfl⟩ := ho2
  refine freq_formula_bounds o _ ?_
  refine List.mem_filter.2 ⟨List.mem_append.2 (Or.inr ho), ?_⟩
  simpa using hts o ho

/-- Witness for C10: a single fresh opportunity gets frequency exactly 1,
which is in (0, 1]. -/
theorem updateHistoricalData_frequency_in_unit_witness :
    0 < ({ c10Opp with historical_frequency := 1 } :
          ArbitrageOpportunity).historical_frequency ∧
    ({ c10Opp with historical_frequency := 1 } :
          ArbitrageOpportunity).historical_frequency ≤ 1 :=
  updateHistoricalData_frequency_in_unit [] [c10Opp] 1000 (by simp)
    (by
      intro o ho
      simp only [List.mem_singleton] at ho
      subst ho
      norm_num [c10Opp, mkOpportunity])
    { c10Opp with historical_frequency := 1 }
    (by
      norm_num [updateHistoricalData, similarCount, c10Opp, mkOpportunity,
        List.filter_cons, List.countP_cons])

end Crypto
